import Mathlib

/-!
Verification development for `static/scripts/S3/s3.inv_recv_multisite.js`.

The script attaches a change handler to the request selector
(`#link_defaultreq`); on change it issues one GET to
`<base>/inv/req/recv_sites.json?req_id=<id>` and, on success, repopulates
the from-site selector (`#inv_recv_from_site_id`), the to-site selector
(`#inv_recv_site_id`) and the shipment-type field (`#inv_recv_type`).

We embed the success callback as a straight-line trace of DOM operations
(`successOps`, one operation per jQuery call in source order) together
with an interpreter (`applyOp` / `runOps`) over a record of the four
fields' states.  `successCallback` is the composite effect of the
callback on the field states.
-/

/-- A site entry from the JSON response: an `(id, label)` pair
(`site[0]` is the id, `site[1]` is the human-readable label). -/
abbrev Site := String × String

/-- The parsed JSON response body: `data[0]` is the from-site list,
`data[1]` the to-site list. -/
abbrev RecvSitesResponse := List Site × List Site

/-- The state of one `<select>` element: its option list, stored as
`(value, label)` pairs in document order, and the explicitly selected
value (`none` when no value has been assigned via `.val(...)`/cleared
by `.html('')`). -/
structure SelectField where
  options : List (String × String)
  value : Option String
deriving Repr, DecidableEq

/-- The states of the four DOM fields the script touches. -/
structure FormState where
  /-- `#link_defaultreq`, the request selector. -/
  reqField : SelectField
  /-- `#inv_recv_from_site_id`, the from-site selector. -/
  fromField : SelectField
  /-- `#inv_recv_site_id`, the to-site selector. -/
  toField : SelectField
  /-- The value of `#inv_recv_type`, the shipment-type field. -/
  typeValue : Option Int
deriving Repr, DecidableEq

/-- One primitive DOM operation performed by the success callback.
`new Option(site[1], site[0])` constructs an option with label
`site[1]` and value `site[0]`, i.e. the stored `(value, label)` pair
is exactly the `site` pair itself. -/
inductive DomOp where
  /-- `fromField.html('')` -/
  | clearFrom
  /-- `toField.html('')` -/
  | clearTo
  /-- `fromField.append(new Option(site[1], site[0]))` -/
  | appendFrom (site : Site)
  /-- `fromField.val(v)` -/
  | setFromVal (v : String)
  /-- `$('#inv_recv_type').val(n)` -/
  | setTypeVal (n : Int)
  /-- `.change()` fired on `#inv_recv_type` -/
  | fireTypeChange
  /-- `toField.append(new Option(site[1], site[0]))` -/
  | appendTo (site : Site)
  /-- `toField.val(v)` -/
  | setToVal (v : String)
deriving Repr, DecidableEq

/-- Effect of one DOM operation on the field states.  Clearing a
select's markup drops its options and its selection; appending adds an
option at the end and leaves the selection untouched; `.val` replaces
the selection; firing the change event mutates no field state. -/
def applyOp (s : FormState) : DomOp → FormState
  | .clearFrom => { s with fromField := { options := [], value := none } }
  | .clearTo => { s with toField := { options := [], value := none } }
  | .appendFrom site =>
      { s with fromField :=
          { s.fromField with options := s.fromField.options ++ [site] } }
  | .setFromVal v => { s with fromField := { s.fromField with value := some v } }
  | .setTypeVal n => { s with typeValue := some n }
  | .fireTypeChange => s
  | .appendTo site =>
      { s with toField :=
          { s.toField with options := s.toField.options ++ [site] } }
  | .setToVal v => { s with toField := { s.toField with value := some v } }

/-- Run a list of DOM operations from left to right. -/
def runOps (s : FormState) (ops : List DomOp) : FormState :=
  ops.foldl applyOp s

/-- The trace of DOM operations performed by the `$.getJSONS3` success
callback on response `data`, one entry per jQuery call in source
order.  After each `for` loop the loop variable `site` holds the last
element of the traversed list, so the `.val(site[0])` calls use
`getLastD`. -/
def successOps (data : RecvSitesResponse) : List DomOp :=
  let fromSites := data.fst
  let toSites := data.snd
  [DomOp.clearFrom, DomOp.clearTo]
    ++ (if fromSites.length ≠ 0 then
          fromSites.map DomOp.appendFrom
            ++ (if fromSites.length = 1 then
                  [DomOp.setFromVal (fromSites.getLastD ("", "")).fst]
                else [])
            ++ [DomOp.setTypeVal 11, DomOp.fireTypeChange]
        else [])
    ++ (if toSites.length = 0 then []
        else
          toSites.map DomOp.appendTo
            ++ (if toSites.length = 1 then
                  [DomOp.setToVal (toSites.getLastD ("", "")).fst]
                else []))

/-- The composite effect of the success callback on the field states. -/
def successCallback (data : RecvSitesResponse) (s : FormState) : FormState :=
  runOps s (successOps data)

/-- URL built by `lookupSites`:
`S3.Ap.concat('/inv/req/recv_sites.json?req_id=' + req_id)`. -/
def recvSitesURL (base req_id : String) : String :=
  base ++ ("/inv/req/recv_sites.json?req_id=" ++ req_id)

/-- An asynchronous GET issued via `$.getJSONS3`. -/
structure AjaxRequest where
  url : String
deriving Repr, DecidableEq

/-- The requests issued by one invocation of `lookupSites(req_id)`:
exactly one GET to `recvSitesURL`, with no guard on `req_id`. -/
def lookupSitesRequests (base req_id : String) : List AjaxRequest :=
  [⟨recvSitesURL base req_id⟩]

/-- The change handler on `#link_defaultreq`: it reads the field's
current value and calls `lookupSites` with it, unconditionally. -/
def reqFieldChangeHandler (base value : String) : List AjaxRequest :=
  lookupSitesRequests base value

/-- Outcome of the asynchronous fetch.  `$.getJSONS3` is passed only a
success handler, so on failure (`none`) no callback runs and the field
states are untouched; on success (`some data`) the success callback
runs. -/
def lookupSitesEffect (response : Option RecvSitesResponse)
    (s : FormState) : FormState :=
  match response with
  | some data => successCallback data s
  | none => s

/-- A concrete starting form state with stale options and values, used
to evaluate the theorems at concrete inputs. -/
def sampleState : FormState :=
  ⟨⟨[("7", "Req")], some "7"⟩,
   ⟨[("9", "Old")], some "9"⟩,
   ⟨[("8", "Stale")], some "8"⟩,
   some 5⟩

/-! ### Helper lemmas -/

theorem runOps_append (s : FormState) (l1 l2 : List DomOp) :
    runOps s (l1 ++ l2) = runOps (runOps s l1) l2 := by
  simp [runOps, List.foldl_append]

theorem runOps_map_appendFrom (fs : List Site) (s : FormState) :
    runOps s (fs.map DomOp.appendFrom) =
      { s with fromField := ⟨s.fromField.options ++ fs, s.fromField.value⟩ } := by
  induction fs generalizing s with
  | nil => simp [runOps]
  | cons a fs ih =>
      simp only [List.map_cons, runOps, List.foldl_cons] at *
      rw [ih]
      simp [applyOp]

theorem runOps_map_appendTo (ts : List Site) (s : FormState) :
    runOps s (ts.map DomOp.appendTo) =
      { s with toField := ⟨s.toField.options ++ ts, s.toField.value⟩ } := by
  induction ts generalizing s with
  | nil => simp [runOps]
  | cons a ts ih =>
      simp only [List.map_cons, runOps, List.foldl_cons] at *
      rw [ih]
      simp [applyOp]

theorem runOps_fromPart (fs : List Site) (s : FormState) :
    runOps s (if fs.length ≠ 0 then
        fs.map DomOp.appendFrom
          ++ (if fs.length = 1 then
                [DomOp.setFromVal (fs.getLastD ("", "")).fst]
              else [])
          ++ [DomOp.setTypeVal 11, DomOp.fireTypeChange]
      else []) =
      { s with
          fromField := ⟨s.fromField.options ++ fs,
            if fs.length = 1 then some (fs.getLastD ("", "")).fst
            else s.fromField.value⟩,
          typeValue := if fs.length = 0 then s.typeValue else some 11 } := by
  by_cases h0 : fs.length = 0
  · rw [List.length_eq_zero] at h0
    subst h0
    simp [runOps]
  · rw [if_pos h0, runOps_append, runOps_append, runOps_map_appendFrom]
    by_cases h1 : fs.length = 1
    · simp [h1, runOps, applyOp]
    · simp [h1, h0, runOps, applyOp]

theorem runOps_toPart (ts : List Site) (s : FormState) :
    runOps s (if ts.length = 0 then []
        else
          ts.map DomOp.appendTo
            ++ (if ts.length = 1 then
                  [DomOp.setToVal (ts.getLastD ("", "")).fst]
                else [])) =
      { s with toField := ⟨s.toField.options ++ ts,
          if ts.length = 1 then some (ts.getLastD ("", "")).fst
          else s.toField.value⟩ } := by
  by_cases h0 : ts.length = 0
  · rw [List.length_eq_zero] at h0
    subst h0
    simp [runOps]
  · rw [if_neg h0, runOps_append, runOps_map_appendTo]
    by_cases h1 : ts.length = 1
    · simp [h1, runOps, applyOp]
    · simp [h1, h0, runOps]

/-- Complete characterization of the success callback: the option lists
become exactly the response lists, the values are set exactly when the
corresponding list is a singleton, the shipment type becomes `11` iff
the from-list is non-empty, and the request selector is untouched. -/
theorem successCallback_eq (data : RecvSitesResponse) (s : FormState) :
    successCallback data s =
      { reqField := s.reqField,
        fromField := ⟨data.fst,
          if data.fst.length = 1 then some (data.fst.getLastD ("", "")).fst
          else none⟩,
        toField := ⟨data.snd,
          if data.snd.length = 1 then some (data.snd.getLastD ("", "")).fst
          else none⟩,
        typeValue := if data.fst.length = 0 then s.typeValue else some 11 } := by
  obtain ⟨fs, ts⟩ := data
  simp only [successCallback, successOps]
  rw [runOps_append, runOps_append]
  have h2 : runOps s [DomOp.clearFrom, DomOp.clearTo] =
      { s with fromField := ⟨[], none⟩, toField := ⟨[], none⟩ } := rfl
  rw [h2, runOps_fromPart, runOps_toPart]
  simp

/-! ### Claim theorems -/

/-- C1: For every response whose from-site list has exactly one element
and whose to-site list has exactly one element, after the success
callback completes the from-field's value equals the single from-site's
id, the to-field's value equals the single to-site's id, and the
shipment-type field's value equals 11. -/
theorem C1_single_from_single_to (f t : Site) (s : FormState) :
    (successCallback ([f], [t]) s).fromField.value = some f.fst ∧
    (successCallback ([f], [t]) s).toField.value = some t.fst ∧
    (successCallback ([f], [t]) s).typeValue = some 11 := by
  simp [successCallback_eq]

/-- C2: For every response with a non-empty from-site list, the success
callback sets the shipment-type field's value to 11 and fires that
field's change handling; this holds even when the to-site list is
empty, since the early return for an empty to-list comes after the
shipment-type assignment. -/
theorem C2_nonempty_from_sets_type (data : RecvSitesResponse) (s : FormState)
    (h : data.fst ≠ []) :
    (successCallback data s).typeValue = some 11 ∧
    DomOp.fireTypeChange ∈ successOps data := by
  have h0 : data.fst.length ≠ 0 := by simpa [List.length_eq_zero] using h
  constructor
  · rw [successCallback_eq]
    simp [h0]
  · simp [successOps, h0]

/-- Witness for C2 at a concrete input whose to-site list is empty. -/
theorem C2_witness :
    (successCallback ([("1", "Warehouse A")], []) sampleState).typeValue
        = some 11 ∧
    DomOp.fireTypeChange ∈ successOps ([("1", "Warehouse A")], []) :=
  C2_nonempty_from_sets_type ([("1", "Warehouse A")], []) sampleState
    (by decide)

/-- C3: For every response whose to-site list is empty, after the
success callback completes the to-field has zero options, regardless of
the from-site list. -/
theorem C3_empty_to_leaves_no_options (data : RecvSitesResponse)
    (s : FormState) (h : data.snd = []) :
    (successCallback data s).toField.options = [] := by
  rw [successCallback_eq]
  simp [h]

/-- Witness for C3 at a concrete input with two from-sites. -/
theorem C3_witness :
    (successCallback ([("1", "A"), ("2", "B")], []) sampleState).toField.options
        = [] :=
  C3_empty_to_leaves_no_options ([("1", "A"), ("2", "B")], []) sampleState rfl

/-- C4: For every response whose from-site list has more than one
entry, after the success callback the from-field's options are exactly
the (id, label) pairs of that list in order (id as the option value,
label as the option label), and no value is assigned to the
from-field. -/
theorem C4_multiple_from_options_no_value (fs ts : List Site) (s : FormState)
    (h : 1 < fs.length) :
    (successCallback (fs, ts) s).fromField.options = fs ∧
    (successCallback (fs, ts) s).fromField.value = none := by
  have h1 : fs.length ≠ 1 := by omega
  rw [successCallback_eq]
  exact ⟨rfl, by simp [h1]⟩

/-- Witness for C4 at a concrete two-entry from-list. -/
theorem C4_witness :
    (successCallback ([("1", "A"), ("2", "B")], [("3", "C")])
        sampleState).fromField.options = [("1", "A"), ("2", "B")] ∧
    (successCallback ([("1", "A"), ("2", "B")], [("3", "C")])
        sampleState).fromField.value = none :=
  C4_multiple_from_options_no_value [("1", "A"), ("2", "B")] [("3", "C")]
    sampleState (by decide)

/-- C5: For every response and every starting state, the success
callback's first two operations clear the from-field and the to-field,
and neither clear recurs afterwards, so every appended option and
assigned value comes after the clears; consequently the final option
lists are exactly the response lists, independent of any stale
options. -/
theorem C5_clear_before_populate (data : RecvSitesResponse) (s : FormState) :
    (∃ rest, successOps data = DomOp.clearFrom :: DomOp.clearTo :: rest ∧
        DomOp.clearFrom ∉ rest ∧ DomOp.clearTo ∉ rest) ∧
    (successCallback data s).fromField.options = data.fst ∧
    (successCallback data s).toField.options = data.snd := by
  obtain ⟨fs, ts⟩ := data
  refine ⟨⟨(successOps (fs, ts)).drop 2, ?_, ?_, ?_⟩, ?_, ?_⟩
  · simp [successOps]
  · simp only [successOps]
    split_ifs <;> simp [List.mem_map]
  · simp only [successOps]
    split_ifs <;> simp [List.mem_map]
  · rw [successCallback_eq]
  · rw [successCallback_eq]

/-- C6: Processing the same response twice in succession is idempotent:
running the success callback twice leaves all four fields in the same
final state as running it once. -/
theorem C6_idempotent (data : RecvSitesResponse) (s : FormState) :
    successCallback data (successCallback data s) = successCallback data s := by
  simp only [successCallback_eq]
  split_ifs <;> rfl

/-- C7: For every value of the request selector field, including the
empty string, the change handler issues exactly one GET whose URL is
the application base path followed by
/inv/req/recv_sites.json?req_id= and the value, with no guard for
empty identifiers. -/
theorem C7_change_triggers_single_get (base value : String) :
    reqFieldChangeHandler base value =
      [⟨base ++ ("/inv/req/recv_sites.json?req_id=" ++ value)⟩] ∧
    (reqFieldChangeHandler base value).length = 1 :=
  ⟨rfl, rfl⟩

/-- C8: No error callback is registered for the fetch: when the success
callback never runs, the from-field, to-field and shipment-type field
remain exactly in their pre-fetch state. -/
theorem C8_failure_leaves_state (s : FormState) :
    lookupSitesEffect none s = s ∧
    (lookupSitesEffect none s).fromField = s.fromField ∧
    (lookupSitesEffect none s).toField = s.toField ∧
    (lookupSitesEffect none s).typeValue = s.typeValue :=
  ⟨rfl, rfl, rfl, rfl⟩

/-- C9: For every response whose from-site list is empty, the success
callback leaves the shipment-type field's value unchanged and never
fires its change handling, assigns no value to the from-field, and
still populates the to-field's options from the to-site list. -/
theorem C9_empty_from_frame (data : RecvSitesResponse) (s : FormState)
    (h : data.fst = []) :
    (successCallback data s).typeValue = s.typeValue ∧
    DomOp.fireTypeChange ∉ successOps data ∧
    (successCallback data s).fromField.value = none ∧
    (successCallback data s).toField.options = data.snd := by
  obtain ⟨fs, ts⟩ := data
  simp only at h
  subst h
  refine ⟨?_, ?_, ?_, ?_⟩
  · rw [successCallback_eq]
    simp
  · simp only [successOps]
    split_ifs <;> simp_all [List.mem_map]
  · rw [successCallback_eq]
    simp
  · rw [successCallback_eq]

/-- Witness for C9 at a concrete input with one to-site. -/
theorem C9_witness :
    (successCallback ([], [("2", "B")]) sampleState).typeValue
        = sampleState.typeValue ∧
    DomOp.fireTypeChange ∉ successOps ([], [("2", "B")]) ∧
    (successCallback ([], [("2", "B")]) sampleState).fromField.value = none ∧
    (successCallback ([], [("2", "B")]) sampleState).toField.options
        = [("2", "B")] :=
  C9_empty_from_frame ([], [("2", "B")]) sampleState rfl

/-- C10: For every response and starting state, the success callback
never modifies the request selector field: its options and value are
identical before and after processing. -/
theorem C10_req_field_untouched (data : RecvSitesResponse) (s : FormState) :
    (successCallback data s).reqField = s.reqField := by
  rw [successCallback_eq]
